import Mathlib

/-! Verification of the avy KML ingestion pipeline and forecast fetch layer. -/

/-- Model of a JavaScript floating-point value as produced by parseFloat:
either NaN, a signed infinity, or a finite value (modelled exactly as a rational). -/
inductive JSNumber where
  | nan : JSNumber
  | inf : Bool → JSNumber
  | num : ℚ → JSNumber
deriving DecidableEq

/-- Numeric value of a list of decimal digit characters. -/
def digitsToNat (ds : List Char) : ℕ :=
  ds.foldl (fun acc c => 10 * acc + (c.toNat - 48)) 0

/-- Value of the signed digit sequence of an ExponentPart; an incomplete
exponent (no digits after the sign) contributes 0 because parseFloat only
consumes a complete exponent. -/
def jsExponentDigitsValue (cs : List Char) : ℤ :=
  match cs with
  | '+' :: rest => if (rest.takeWhile Char.isDigit).isEmpty then 0 else (digitsToNat (rest.takeWhile Char.isDigit) : ℤ)
  | '-' :: rest => if (rest.takeWhile Char.isDigit).isEmpty then 0 else -(digitsToNat (rest.takeWhile Char.isDigit) : ℤ)
  | _ => if (cs.takeWhile Char.isDigit).isEmpty then 0 else (digitsToNat (cs.takeWhile Char.isDigit) : ℤ)

/-- Value of an ExponentPart at the head of the character list, as in the
JS StrDecimalLiteral grammar: e or E, an optional sign, then at least one
digit. -/
def jsExponentValue (cs : List Char) : ℤ :=
  match cs with
  | 'e' :: rest => jsExponentDigitsValue rest
  | 'E' :: rest => jsExponentDigitsValue rest
  | _ => 0

/-- Exact rational value mantissa times ten to the (e minus fracLen), built
with mkRat and machine-accelerated Nat and Int arithmetic so that concrete
instances reduce in the kernel. -/
def decimalRat (mantissa : ℕ) (fracLen : ℕ) (e : ℤ) : ℚ :=
  if (fracLen : ℤ) ≤ e then mkRat ((mantissa * 10 ^ (e - (fracLen : ℤ)).toNat : ℕ) : ℤ) 1
  else mkRat (mantissa : ℤ) (10 ^ (((fracLen : ℤ) - e).toNat))

/-- Parse an unsigned decimal literal prefix (digits, optional fraction,
optional exponent); none when no digits are present, matching JS parseFloat
returning NaN. -/
def jsParseDecimal (cs : List Char) : Option ℚ :=
  let intDigits := cs.takeWhile Char.isDigit
  let r1 := cs.dropWhile Char.isDigit
  match r1 with
  | '.' :: r2 =>
    let fracDigits := r2.takeWhile Char.isDigit
    let r3 := r2.dropWhile Char.isDigit
    if intDigits.isEmpty && fracDigits.isEmpty then none
    else some (decimalRat (digitsToNat intDigits * 10 ^ fracDigits.length + digitsToNat fracDigits) fracDigits.length (jsExponentValue r3))
  | _ =>
    if intDigits.isEmpty then none
    else some (decimalRat (digitsToNat intDigits) 0 (jsExponentValue r1))

/-- Parse the part of a parseFloat input following the optional sign. -/
def parseFloatAfterSign (neg : Bool) (cs : List Char) : JSNumber :=
  if ("Infinity".toList).isPrefixOf cs then JSNumber.inf neg
  else match jsParseDecimal cs with
    | none => JSNumber.nan
    | some q => JSNumber.num (if neg then -q else q)

/-- Model of the JavaScript parseFloat builtin: skip leading whitespace,
optional sign, then the longest StrDecimalLiteral prefix; NaN when no
valid prefix exists. -/
def parseFloat (s : String) : JSNumber :=
  match s.toList.dropWhile Char.isWhitespace with
  | '-' :: rest => parseFloatAfterSign true rest
  | '+' :: rest => parseFloatAfterSign false rest
  | cs => parseFloatAfterSign false cs

/-- Split a character list at every character satisfying the predicate,
keeping empty fragments, exactly as the JS string split method behaves for a
single-character separator. Defined by structural recursion so concrete
instances reduce in the kernel (the corresponding String library functions
use well-founded recursion on byte positions and do not). -/
def splitChars (p : Char → Bool) : List Char → List (List Char)
  | [] => [[]]
  | c :: cs =>
    match splitChars p cs with
    | [] => [[]]
    | group :: groups =>
      if p c then [] :: group :: groups else (c :: group) :: groups

/-- JS String.prototype.trim: remove whitespace from both ends. -/
def jsTrim (s : String) : String :=
  String.mk ((((s.toList.dropWhile Char.isWhitespace).reverse.dropWhile Char.isWhitespace).reverse))

/-- JS falsiness of a string: exactly the empty string is falsy. -/
def jsFalsyString (s : String) : Bool :=
  s.toList.isEmpty

/-- Split on runs of whitespace, as JS split on a whitespace-plus regex does
for a trimmed input: splitting at every whitespace character and discarding
the empty fragments between consecutive whitespace characters. -/
def jsSplitWhitespace (s : String) : List String :=
  ((splitChars Char.isWhitespace s.toList).map String.mk).filter (fun t => !(jsFalsyString t))

/-- Per-token coordinate parsing, after the token has been split on commas:
the first two components are parsed as (longitude, latitude); a missing
latitude component behaves as parseFloat applied to undefined, which is NaN. -/
def parseCoordTokenParts (parts : List String) : List JSNumber :=
  [parseFloat (parts.headD ""),
    match parts.get? 1 with
    | some latitude => parseFloat latitude
    | none => JSNumber.nan]

/-- Parsing of one whitespace-separated coordinate token: split on commas
(JS split with a comma separator keeps every fragment) and parse the first
two components. -/
def parseCoordToken (coord : String) : List JSNumber :=
  parseCoordTokenParts ((splitChars (fun c => c = ',') coord.toList).map String.mk)

/-- Model of parseCoordinates from useAlternateObservationZones: empty or
all-whitespace input yields the empty list; otherwise the trimmed input is
split on runs of whitespace and every token is parsed into a coordinate pair. -/
def parseCoordinates (coordinateString : String) : List (List JSNumber) :=
  if jsFalsyString coordinateString || jsFalsyString (jsTrim coordinateString) then []
  else (jsSplitWhitespace (jsTrim coordinateString)).map parseCoordToken

/-- The whitespace-separated tokens of the trimmed input that parseCoordinates
iterates over; empty when the guard of parseCoordinates returns early. -/
def jsTokens (s : String) : List String :=
  if jsFalsyString s || jsFalsyString (jsTrim s) then [] else jsSplitWhitespace (jsTrim s)

/-- A token parses as a number pair when both emitted components are numeric
values of JS (finite or infinite), that is, neither component is NaN. -/
def tokenParsesAsNumberPair (tok : String) : Prop :=
  ∃ n1 n2 : JSNumber, n1 ≠ JSNumber.nan ∧ n2 ≠ JSNumber.nan ∧ parseCoordToken tok = [n1, n2]

/-- Text node of the compact xml-js representation; the _text member is
absent for empty XML elements. -/
structure KMLTextNode where
  _text : Option String
deriving DecidableEq

/-- Coordinates element carrying the raw coordinate string. -/
structure KMLCoordinates where
  _text : String
deriving DecidableEq

structure KMLLinearRing where
  coordinates : KMLCoordinates
deriving DecidableEq

structure KMLOuterBoundaryIs where
  LinearRing : KMLLinearRing
deriving DecidableEq

structure KMLPolygon where
  outerBoundaryIs : KMLOuterBoundaryIs
deriving DecidableEq

structure KMLMultiGeometry where
  Polygon : KMLPolygon
deriving DecidableEq

/-- A placemark node: a name and optionally a Polygon or MultiGeometry. -/
structure KMLPlacemark where
  name : KMLTextNode
  Polygon : Option KMLPolygon
  MultiGeometry : Option KMLMultiGeometry
deriving DecidableEq

structure KMLFolder where
  Placemark : List KMLPlacemark
deriving DecidableEq

structure KMLDocument where
  Folder : KMLFolder
deriving DecidableEq

structure KMLRoot where
  Document : KMLDocument
deriving DecidableEq

/-- Validated KML file tree, with placemarks under kml.Document.Folder. -/
structure KMLFile where
  kml : KMLRoot
deriving DecidableEq

/-- GeoJSON Polygon geometry: a list of rings, each ring a list of coordinate
pairs (the type tag is always the Polygon string in this code and is omitted). -/
structure PolygonGeometry where
  coordinates : List (List (List JSNumber))
deriving DecidableEq

structure KMLFeatureProperties where
  name : String
deriving DecidableEq

structure KMLFeature where
  geometry : PolygonGeometry
  id : ℤ
  properties : KMLFeatureProperties
deriving DecidableEq

/-- Intermediate feature collection produced by parseKmlData (the type tag is
always the FeatureCollection string and is omitted). -/
structure KMLFeatureCollection where
  features : List KMLFeature
deriving DecidableEq

structure ObservationZoneProperties where
  name : String
  center_id : String
deriving DecidableEq

structure ObservationZonesFeature where
  geometry : PolygonGeometry
  id : ℤ
  properties : ObservationZoneProperties
deriving DecidableEq

structure ObservationZonesFeatureCollection where
  features : List ObservationZonesFeature
deriving DecidableEq

/-- JSON values, the output domain of xml2json followed by JSON.parse. -/
inductive Json where
  | null : Json
  | bool : Bool → Json
  | num : ℚ → Json
  | str : String → Json
  | arr : List Json → Json
  | obj : List (String × Json) → Json

/-- JS logical-or defaulting on a possibly absent string: both undefined and
the empty string are falsy, so both select the default. -/
def jsOrDefault (text : Option String) (deflt : String) : String :=
  match text with
  | none => deflt
  | some s => if s.isEmpty then deflt else s

/-- Model of getCoordinateString: prefer the Polygon ring text, then the
MultiGeometry Polygon ring text, else the empty string. -/
def getCoordinateString (placemark : KMLPlacemark) : String :=
  match placemark.Polygon with
  | some polygon => polygon.outerBoundaryIs.LinearRing.coordinates._text
  | none =>
    match placemark.MultiGeometry with
    | some multiGeometry => multiGeometry.Polygon.outerBoundaryIs.LinearRing.coordinates._text
    | none => ""

/-- The callback of the placemark map inside parseKmlData, factored out
verbatim: the feature emitted for the placemark at document ordinal index. -/
def buildKMLFeature (index : ℕ) (placemark : KMLPlacemark) : KMLFeature :=
  let coordinateString := getCoordinateString placemark
  let coordinates := parseCoordinates coordinateString
  { geometry := { coordinates := [coordinates] },
    id := (index : ℤ),
    properties := { name := jsOrDefault placemark.name._text "Unknown KML Zone" } }

/-- Model of parseKmlData. The input is the result of xml2json plus
JSON.parse on the fetched text (an error value models an exception thrown
there, which parseKmlData does not catch). KMLFileSchema lives in
types/nationalAvalancheCenter outside these sources, so its safeParse is a
parameter: on schema failure parseKmlData returns the empty feature
collection, otherwise one feature per placemark in document order. -/
def parseKmlData (safeParseKMLFile : Json → Option KMLFile)
    (response : Except String Json) : Except String KMLFeatureCollection :=
  match response with
  | .error err => .error err
  | .ok tree =>
    match safeParseKMLFile tree with
    | none => .ok { features := [] }
    | some kmlData =>
      let placemarks := kmlData.kml.Document.Folder.Placemark
      let features := placemarks.mapIdx buildKMLFeature
      .ok { features := features }

/-- The callback of the feature map inside
transformKmlFeaturesToObservationZones, factored out verbatim: what the map
returns at index i, either none (properties schema failure) or the
transformed feature with the synthetic identifier. -/
def transformStep
    (safeParseObservationZonesProperties : ObservationZoneProperties → Option ObservationZoneProperties)
    (center_id : String) (i : ℕ) (feature : KMLFeature) : Option ObservationZonesFeature :=
  let baseProperties : ObservationZoneProperties :=
    { name := feature.properties.name, center_id := center_id }
  match safeParseObservationZonesProperties baseProperties with
  | none => none
  | some fullProperties =>
    some { geometry := feature.geometry,
           id := -100000 - (i : ℤ),
           properties := fullProperties }

/-- Model of transformKmlFeaturesToObservationZones. The zod schema
observationZonesPropertiesSchema lives outside these sources, so its
safeParse is a parameter; each feature at index i is either dropped (schema
failure) or given the synthetic identifier -100000 - i, and the option
filter keeps exactly the defined results. -/
def transformKmlFeaturesToObservationZones
    (safeParseObservationZonesProperties : ObservationZoneProperties → Option ObservationZoneProperties)
    (kmlCollection : KMLFeatureCollection) (center_id : String) :
    ObservationZonesFeatureCollection :=
  let transformedFeatures : List (Option ObservationZonesFeature) :=
    kmlCollection.features.mapIdx (transformStep safeParseObservationZonesProperties center_id)
  { features := transformedFeatures.filterMap id }

/-- Model of fetchAlternateObservationZones after the transport fetch: runs
parseKmlData and the transformation inside a try block whose catch returns
the empty feature collection. -/
def fetchAlternateObservationZones (safeParseKMLFile : Json → Option KMLFile)
    (safeParseObservationZonesProperties : ObservationZoneProperties → Option ObservationZoneProperties)
    (response : Except String Json) (center_id : String) :
    ObservationZonesFeatureCollection :=
  match parseKmlData safeParseKMLFile response with
  | .error _ => { features := [] }
  | .ok kmlFeatureCollection =>
    transformKmlFeaturesToObservationZones safeParseObservationZonesProperties
      kmlFeatureCollection center_id

theorem transform_eq_filterMap_step
    (validate : ObservationZoneProperties → Option ObservationZoneProperties)
    (kmlCollection : KMLFeatureCollection) (center_id : String) :
    (transformKmlFeaturesToObservationZones validate kmlCollection center_id).features =
      (kmlCollection.features.mapIdx (transformStep validate center_id)).filterMap id := rfl

theorem filterMap_congr_mem {α β : Type} {f g : α → Option β} :
    ∀ (l : List α), (∀ x ∈ l, f x = g x) → l.filterMap f = l.filterMap g := by
  intro l
  induction l with
  | nil => intro _; rfl
  | cons a l ih =>
    intro h
    rw [List.filterMap_cons, List.filterMap_cons, h a (List.mem_cons_self a l),
      ih (fun x hx => h x (List.mem_cons_of_mem a hx))]

theorem filterMap_mapIdx_eq_range {α β : Type} (step : ℕ → α → Option β) (l : List α) :
    (l.mapIdx step).filterMap id =
      (List.range l.length).filterMap (fun i => (l.get? i).bind (step i)) := by
  induction l using List.reverseRecOn with
  | nil => rfl
  | append_singleton l a ih =>
    rw [List.mapIdx_append_one, List.filterMap_append, ih, List.length_append,
      List.length_singleton, List.range_succ, List.filterMap_append]
    congr 1
    · apply filterMap_congr_mem
      intro x hx
      rw [List.get?_append (List.mem_range.mp hx)]
    · cases h : step l.length a <;> simp [List.getElem?_concat_length, h]


/-- Truthiness of a JSON value under the JS Boolean conversion, used by the
coerce-boolean field of the forecast schema. -/
def jsTruthy : Json → Bool
  | Json.null => false
  | Json.bool b => b
  | Json.num q => decide (q ≠ 0)
  | Json.str s => !s.isEmpty
  | Json.arr _ => true
  | Json.obj _ => true

/-- Field lookup in a JSON object value; none when the value is not an
object or the key is absent. -/
def jsonField (j : Json) (key : String) : Option Json :=
  match j with
  | Json.obj fields => List.lookup key fields
  | _ => none

/-- zod z.string: accepts exactly string values. -/
def zString : Json → Option String
  | Json.str s => some s
  | _ => none

/-- zod z.number: accepts exactly numeric values. -/
def zNumber : Json → Option ℚ
  | Json.num q => some q
  | _ => none

/-- zod z.array: accepts an array whose every item the element schema accepts. -/
def zArray {α : Type} (p : Json → Option α) : Json → Option (List α)
  | Json.arr items => items.mapM p
  | _ => none

/-- zod required object field: fails when the key is missing, otherwise runs
the field schema on the value. -/
def zField {α : Type} (fields : List (String × Json)) (key : String)
    (p : Json → Option α) : Option α :=
  match List.lookup key fields with
  | none => none
  | some v => p v

/-- zod field declared optional and nullable: a missing key and a null value
both parse to none, any other value must satisfy the field schema. -/
def zOptionalNullable {α : Type} (fields : List (String × Json)) (key : String)
    (p : Json → Option α) : Option (Option α) :=
  match List.lookup key fields with
  | none => some none
  | some Json.null => some none
  | some v => (p v).map some

/-- Replace the first occurrence of a character, as the JS string replace
method does for a single-character string pattern. -/
def replaceFirstChar : List Char → Char → Char → List Char
  | [], _, _ => []
  | x :: xs, c, r => if x = c then r :: xs else x :: replaceFirstChar xs c r

/-- The transform applied to creation_date and publish_date: replace the
first space with a T and append the UTC offset suffix. -/
def nwacDateTransform (s : String) : String :=
  String.mk (replaceFirstChar s.toList ' ' 'T') ++ "+00:00"

/-- The six TimeOfDay enumeration values accepted by z.nativeEnum. -/
def timeOfDayValues : List String :=
  ["0-notspec", "1-morning", "1a-midday", "2-afternoon", "3-evening", "4-night"]

/-- zod z.nativeEnum over TimeOfDay: accepts exactly the enum values. -/
def zTimeOfDay : Json → Option String
  | Json.str s => if timeOfDayValues.contains s then some s else none
  | _ => none

structure NWACTempRange where
  min : ℚ
  max : ℚ
deriving DecidableEq

structure NWACForecaster where
  first_name : String
  last_name : String
deriving DecidableEq

structure MountainWeatherForecast where
  id : ℚ
  creation_date : String
  publish_date : String
  day1_date : String
  special_header_notes : String
  synopsis_day1_day2 : String
  extended_synopsis : String
  afternoon : Bool
deriving DecidableEq

structure NWACPrecipitationValue where
  value : String
deriving DecidableEq

structure NWACPrecipitationByLocation where
  name : String
  order : ℚ
  precipitation : List NWACPrecipitationValue
deriving DecidableEq

structure NWACSnowLevel where
  elevation : ℚ
deriving DecidableEq

structure NWACRidgelineWind where
  direction : String
  speed : String
deriving DecidableEq

structure NWACWeatherForecastEntry where
  date : String
  time_of_day : String
  description : String
deriving DecidableEq

/-- The payload type of nwacWeatherForecastSchema. -/
structure NWACWeatherForecast where
  five_thousand_foot_temperatures : List NWACTempRange
  forecaster : NWACForecaster
  mountain_weather_forecast : MountainWeatherForecast
  periods : List String
  sub_periods : List String
  precipitation_by_location : List NWACPrecipitationByLocation
  snow_levels : List NWACSnowLevel
  ridgeline_winds : List NWACRidgelineWind
  weather_forecasts : List NWACWeatherForecastEntry
deriving DecidableEq

/-- The meta pagination envelope; every field is optional and nullable, and
missing and null are collapsed to none. -/
structure NWACMeta where
  limit : Option ℚ
  next : Option String
  offset : Option ℚ
  previous : Option String
  total_count : Option ℚ
deriving DecidableEq

/-- The full response envelope of nwacWeatherForecastMetaSchema. -/
structure NWACWeatherForecastMeta where
  meta : NWACMeta
  objects : NWACWeatherForecast
deriving DecidableEq

def parseNWACTempRange (j : Json) : Option NWACTempRange :=
  match j with
  | Json.obj fields => do
    let mn ← zField fields "min" zNumber
    let mx ← zField fields "max" zNumber
    some { min := mn, max := mx }
  | _ => none

def parseNWACForecaster (j : Json) : Option NWACForecaster :=
  match j with
  | Json.obj fields => do
    let fn ← zField fields "first_name" zString
    let ln ← zField fields "last_name" zString
    some { first_name := fn, last_name := ln }
  | _ => none

/-- Parser of the mountain_weather_forecast block. The afternoon field uses
z.coerce.boolean, which runs the JS Boolean conversion and never fails, also
when the key is missing (Boolean of undefined is false). -/
def parseMountainWeatherForecast (j : Json) : Option MountainWeatherForecast :=
  match j with
  | Json.obj fields => do
    let mwfId ← zField fields "id" zNumber
    let creationDate ← zField fields "creation_date" zString
    let publishDate ← zField fields "publish_date" zString
    let day1Date ← zField fields "day1_date" zString
    let specialHeaderNotes ← zField fields "special_header_notes" zString
    let synopsisDay1Day2 ← zField fields "synopsis_day1_day2" zString
    let extendedSynopsis ← zField fields "extended_synopsis" zString
    let afternoon := ((List.lookup "afternoon" fields).map jsTruthy).getD false
    some { id := mwfId,
           creation_date := nwacDateTransform creationDate,
           publish_date := nwacDateTransform publishDate,
           day1_date := day1Date,
           special_header_notes := specialHeaderNotes,
           synopsis_day1_day2 := synopsisDay1Day2,
           extended_synopsis := extendedSynopsis,
           afternoon := afternoon }
  | _ => none

def parseNWACPrecipitationValue (j : Json) : Option NWACPrecipitationValue :=
  match j with
  | Json.obj fields => do
    let v ← zField fields "value" zString
    some { value := v }
  | _ => none

def parseNWACPrecipitationByLocation (j : Json) : Option NWACPrecipitationByLocation :=
  match j with
  | Json.obj fields => do
    let nm ← zField fields "name" zString
    let ord ← zField fields "order" zNumber
    let precip ← zField fields "precipitation" (zArray parseNWACPrecipitationValue)
    some { name := nm, order := ord, precipitation := precip }
  | _ => none

def parseNWACSnowLevel (j : Json) : Option NWACSnowLevel :=
  match j with
  | Json.obj fields => do
    let e ← zField fields "elevation" zNumber
    some { elevation := e }
  | _ => none

def parseNWACRidgelineWind (j : Json) : Option NWACRidgelineWind :=
  match j with
  | Json.obj fields => do
    let d ← zField fields "direction" zString
    let sp ← zField fields "speed" zString
    some { direction := d, speed := sp }
  | _ => none

def parseNWACWeatherForecastEntry (j : Json) : Option NWACWeatherForecastEntry :=
  match j with
  | Json.obj fields => do
    let d ← zField fields "date" zString
    let tod ← zField fields "time_of_day" zTimeOfDay
    let desc ← zField fields "description" zString
    some { date := d, time_of_day := tod, description := desc }
  | _ => none

/-- safeParse of nwacWeatherForecastSchema (the objects payload schema),
field by field in declaration order. -/
def nwacWeatherForecastSchema_safeParse (j : Json) : Option NWACWeatherForecast :=
  match j with
  | Json.obj fields => do
    let temps ← zField fields "five_thousand_foot_temperatures" (zArray parseNWACTempRange)
    let fcaster ← zField fields "forecaster" parseNWACForecaster
    let mwf ← zField fields "mountain_weather_forecast" parseMountainWeatherForecast
    let periods ← zField fields "periods" (zArray zString)
    let subPeriods ← zField fields "sub_periods" (zArray zString)
    let precip ← zField fields "precipitation_by_location" (zArray parseNWACPrecipitationByLocation)
    let snowLevels ← zField fields "snow_levels" (zArray parseNWACSnowLevel)
    let winds ← zField fields "ridgeline_winds" (zArray parseNWACRidgelineWind)
    let wfs ← zField fields "weather_forecasts" (zArray parseNWACWeatherForecastEntry)
    some { five_thousand_foot_temperatures := temps,
           forecaster := fcaster,
           mountain_weather_forecast := mwf,
           periods := periods,
           sub_periods := subPeriods,
           precipitation_by_location := precip,
           snow_levels := snowLevels,
           ridgeline_winds := winds,
           weather_forecasts := wfs }
  | _ => none

def parseNWACMeta (j : Json) : Option NWACMeta :=
  match j with
  | Json.obj fields => do
    let lim ← zOptionalNullable fields "limit" zNumber
    let nxt ← zOptionalNullable fields "next" zString
    let off ← zOptionalNullable fields "offset" zNumber
    let prev ← zOptionalNullable fields "previous" zString
    let tot ← zOptionalNullable fields "total_count" zNumber
    some { limit := lim, next := nxt, offset := off, previous := prev, total_count := tot }
  | _ => none

/-- safeParse of nwacWeatherForecastMetaSchema: the meta envelope plus the
objects payload. -/
def nwacWeatherForecastMetaSchema_safeParse (j : Json) : Option NWACWeatherForecastMeta :=
  match j with
  | Json.obj fields => do
    let meta ← zField fields "meta" parseNWACMeta
    let objects ← zField fields "objects" nwacWeatherForecastSchema_safeParse
    some { meta := meta, objects := objects }
  | _ => none

/-- Error type of the forecast fetch as seen by the caller: a transport
error from axios, or the ZodError thrown on schema validation failure. -/
inductive NWACFetchError where
  | axios : String → NWACFetchError
  | zod : NWACFetchError
deriving DecidableEq

/-- Model of fetchNWACWeatherForecast after URL construction: the input is
the outcome of the axios get (an error value models a transport failure,
which rejects the promise before any parsing). On schema failure the
ZodError is thrown; on success the objects payload is returned. -/
def fetchNWACWeatherForecast (response : Except String Json) :
    Except NWACFetchError NWACWeatherForecast :=
  match response with
  | .error e => .error (NWACFetchError.axios e)
  | .ok data =>
    match nwacWeatherForecastMetaSchema_safeParse data with
    | none => .error NWACFetchError.zod
    | some parseResultData => .ok parseResultData.objects

/-- Cache entry for one query key: the cached value and the time it was
fetched, in milliseconds. -/
structure CacheEntry (α : Type) where
  value : α
  fetchedAt : ℕ
deriving DecidableEq

/-- What kind of fetch a cache request triggered: none, exactly one
background refetch, or a blocking foreground fetch. -/
inductive CacheFetchKind where
  | noFetch : CacheFetchKind
  | background : CacheFetchKind
  | foreground : CacheFetchKind
deriving DecidableEq

/-- Modelled from the spec: the generic cache-aware fetch primitive (the
react-query useQuery staleTime and cacheTime semantics) is an external
collaborator whose code is not in these sources; section 4.1 of the spec
specifies it. A request at time now for a key whose entry is absent or past
the retention horizon performs a blocking foreground fetch and stores the
result; past the staleness horizon it returns the cached value immediately
and stores the result of exactly one background refetch; otherwise it
returns the cached value with no fetch. The result triple is the value
served, the fetch kind triggered, and the new cache entry. -/
def cacheRequest {α : Type} (staleTime cacheTime : ℕ) (now : ℕ) (fetched : α)
    (entry : Option (CacheEntry α)) : α × CacheFetchKind × Option (CacheEntry α) :=
  match entry with
  | none => (fetched, CacheFetchKind.foreground, some { value := fetched, fetchedAt := now })
  | some e =>
    if cacheTime < now - e.fetchedAt then
      (fetched, CacheFetchKind.foreground, some { value := fetched, fetchedAt := now })
    else if staleTime < now - e.fetchedAt then
      (e.value, CacheFetchKind.background, some { value := fetched, fetchedAt := now })
    else (e.value, CacheFetchKind.noFetch, some e)

/-- Staleness and retention horizons of one query configuration, in
milliseconds; top models the Infinity cacheTime. -/
structure QueryCacheConfig where
  staleTime : ℕ∞
  cacheTime : ℕ∞
deriving DecidableEq

/-- useNWACWeatherForecast: staleTime one hour, cacheTime one day. -/
def useNWACWeatherForecastCacheConfig : QueryCacheConfig :=
  { staleTime := 60 * 60 * 1000, cacheTime := 24 * 60 * 60 * 1000 }

/-- useAlternateObservationZones: cacheTime Infinity; staleTime is not set,
so it is the react-query default of zero. -/
def useAlternateObservationZonesCacheConfig : QueryCacheConfig :=
  { staleTime := 0, cacheTime := ⊤ }

/-- prefetchAlternateObservationZones: staleTime one day, cacheTime Infinity. -/
def prefetchAlternateObservationZonesCacheConfig : QueryCacheConfig :=
  { staleTime := 24 * 60 * 60 * 1000, cacheTime := ⊤ }

/-- prefetchNWACWeatherForecast sets neither horizon, so both are the
react-query defaults: staleTime zero, cacheTime five minutes. -/
def prefetchNWACWeatherForecastCacheConfig : QueryCacheConfig :=
  { staleTime := 0, cacheTime := 5 * 60 * 1000 }

/-- Every cache configuration constructed by the two hooks and the two
prefetch helpers. -/
def programCacheConfigs : List QueryCacheConfig :=
  [useNWACWeatherForecastCacheConfig,
   useAlternateObservationZonesCacheConfig,
   prefetchAlternateObservationZonesCacheConfig,
   prefetchNWACWeatherForecastCacheConfig]

theorem transformStep_eq_some (validate : ObservationZoneProperties → Option ObservationZoneProperties)
    (center_id : String) (i : ℕ) (feature : KMLFeature) (g : ObservationZonesFeature) :
    transformStep validate center_id i feature = some g ↔
      ∃ p, validate { name := feature.properties.name, center_id := center_id } = some p ∧
        g = { geometry := feature.geometry, id := -100000 - (i : ℤ), properties := p } := by
  simp only [transformStep]
  cases hv : validate { name := feature.properties.name, center_id := center_id } with
  | none => simp
  | some p => simp [eq_comm]

theorem mem_transform_features {validate : ObservationZoneProperties → Option ObservationZoneProperties}
    {center_id : String} {kmlCollection : KMLFeatureCollection} {g : ObservationZonesFeature} :
    g ∈ (transformKmlFeaturesToObservationZones validate kmlCollection center_id).features ↔
      ∃ i, i < kmlCollection.features.length ∧
        (kmlCollection.features.get? i).bind (transformStep validate center_id i) = some g := by
  rw [transform_eq_filterMap_step, filterMap_mapIdx_eq_range, List.mem_filterMap]
  constructor
  · rintro ⟨i, hmem, hsome⟩
    exact ⟨i, List.mem_range.mp hmem, hsome⟩
  · rintro ⟨i, hlt, hsome⟩
    exact ⟨i, List.mem_range.mpr hlt, hsome⟩

theorem id_of_bind_transformStep {validate : ObservationZoneProperties → Option ObservationZoneProperties}
    {center_id : String} {i : ℕ} {o : Option KMLFeature} {g : ObservationZonesFeature}
    (h : o.bind (transformStep validate center_id i) = some g) : g.id = -100000 - (i : ℤ) := by
  cases o with
  | none => simp at h
  | some f =>
    simp only [Option.bind] at h
    rcases (transformStep_eq_some validate center_id i f g).mp h with ⟨p, _, rfl⟩
    rfl

/-- C1: for every KML feature collection with n features, the transformed
observation-zone collection has at most n features, and every surviving
feature's identifier equals -100000 - i where i is its original zero-based
ordinal in the input collection (the index before filtering), alongside that
original feature's geometry and validated properties. -/
theorem transform_preserves_original_ordinal_ids
    (validate : ObservationZoneProperties → Option ObservationZoneProperties)
    (kmlCollection : KMLFeatureCollection) (center_id : String) :
    (transformKmlFeaturesToObservationZones validate kmlCollection center_id).features.length ≤
      kmlCollection.features.length ∧
    ∀ f ∈ (transformKmlFeaturesToObservationZones validate kmlCollection center_id).features,
      ∃ i : ℕ, ∃ hi : i < kmlCollection.features.length,
        f.id = -100000 - (i : ℤ) ∧
        f.geometry = (kmlCollection.features.get ⟨i, hi⟩).geometry ∧
        validate { name := (kmlCollection.features.get ⟨i, hi⟩).properties.name,
                   center_id := center_id } = some f.properties := by
  constructor
  · calc (transformKmlFeaturesToObservationZones validate kmlCollection center_id).features.length
        = ((kmlCollection.features.mapIdx (transformStep validate center_id)).filterMap id).length := by
          rw [transform_eq_filterMap_step]
      _ ≤ (kmlCollection.features.mapIdx (transformStep validate center_id)).length :=
          List.length_filterMap_le _ _
      _ = kmlCollection.features.length := List.length_mapIdx
  · intro f hf
    rcases mem_transform_features.mp hf with ⟨i, hi, hbind⟩
    refine ⟨i, hi, ?_⟩
    rw [List.get?_eq_get hi] at hbind
    simp only [Option.bind] at hbind
    rcases (transformStep_eq_some validate center_id i _ f).mp hbind with ⟨p, hp, rfl⟩
    exact ⟨rfl, rfl, hp⟩

def demoKMLFeature : KMLFeature :=
  { geometry := { coordinates := [[]] }, id := 0, properties := { name := "Zone A" } }

def demoKMLCollection : KMLFeatureCollection :=
  { features := [demoKMLFeature] }

def demoObservationZonesFeature : ObservationZonesFeature :=
  { geometry := { coordinates := [[]] }, id := -100000,
    properties := { name := "Zone A", center_id := "NWAC" } }

theorem transform_preserves_original_ordinal_ids_witness :
    (transformKmlFeaturesToObservationZones some demoKMLCollection "NWAC").features.length ≤
      demoKMLCollection.features.length ∧
    (∃ i : ℕ, ∃ hi : i < demoKMLCollection.features.length,
      demoObservationZonesFeature.id = -100000 - (i : ℤ) ∧
      demoObservationZonesFeature.geometry = (demoKMLCollection.features.get ⟨i, hi⟩).geometry ∧
      some { name := (demoKMLCollection.features.get ⟨i, hi⟩).properties.name, center_id := "NWAC" } =
        some demoObservationZonesFeature.properties) := by
  have h := transform_preserves_original_ordinal_ids some demoKMLCollection "NWAC"
  exact ⟨h.1, h.2 demoObservationZonesFeature (by decide)⟩

/-- C2: for every parsed KML tree that fails schema validation, parseKmlData
returns the empty feature collection (it does not throw), and the
surrounding fetchAlternateObservationZones returns the empty collection to
its caller. -/
theorem invalid_kml_yields_empty_collection
    (safeParseKMLFile : Json → Option KMLFile)
    (validateProperties : ObservationZoneProperties → Option ObservationZoneProperties)
    (tree : Json) (center_id : String)
    (h : safeParseKMLFile tree = none) :
    parseKmlData safeParseKMLFile (Except.ok tree) = Except.ok { features := [] } ∧
    fetchAlternateObservationZones safeParseKMLFile validateProperties (Except.ok tree) center_id =
      { features := [] } := by
  have h1 : parseKmlData safeParseKMLFile (Except.ok tree) = Except.ok { features := [] } := by
    simp [parseKmlData, h]
  refine ⟨h1, ?_⟩
  simp only [fetchAlternateObservationZones, h1]
  rfl

theorem invalid_kml_yields_empty_collection_witness :
    parseKmlData (fun _ => none) (Except.ok Json.null) = Except.ok { features := [] } ∧
    fetchAlternateObservationZones (fun _ => none) some (Except.ok Json.null) "NWAC" =
      { features := [] } :=
  invalid_kml_yields_empty_collection (fun _ => none) some Json.null "NWAC" rfl

theorem jsFalsyString_eq_true_iff (s : String) : jsFalsyString s = true ↔ s = "" := by
  cases s with
  | mk data => simp [jsFalsyString, String.toList, List.isEmpty_iff, String.ext_iff]

/-- C5: parseCoordinates returns the empty list for empty or all-whitespace
input; otherwise it maps token parsing over the trimmed input split on runs
of whitespace; per token only the first two comma components are used, so an
altitude component is ignored; and the spec round-trip example parses to the
three expected pairs. -/
theorem parseCoordinates_splitting_and_roundtrip :
    (∀ s : String, jsTrim s = "" → parseCoordinates s = []) ∧
    (∀ s : String, jsTrim s ≠ "" →
      parseCoordinates s = (jsSplitWhitespace (jsTrim s)).map parseCoordToken) ∧
    (∀ (longitude latitude : String) (altitude : List String),
      parseCoordTokenParts (longitude :: latitude :: altitude) =
        [parseFloat longitude, parseFloat latitude]) ∧
    parseCoordinates "-121.75,47.43 -121.76,47.44 -121.75,47.43" =
      [[JSNumber.num (-121.75), JSNumber.num 47.43],
       [JSNumber.num (-121.76), JSNumber.num 47.44],
       [JSNumber.num (-121.75), JSNumber.num 47.43]] := by
  refine ⟨?_, ?_, ?_, ?_⟩
  · intro s h
    simp [parseCoordinates, h, jsFalsyString]
  · intro s h
    have h1 : jsFalsyString (jsTrim s) = false := by
      cases he : jsFalsyString (jsTrim s)
      · rfl
      · exact absurd (jsFalsyString_eq_true_iff (jsTrim s) |>.mp he) h
    have h2 : jsFalsyString s = false := by
      cases he : jsFalsyString s
      · rfl
      · have hs : s = "" := (jsFalsyString_eq_true_iff s).mp he
        rw [hs] at h
        exact absurd rfl h
    simp [parseCoordinates, h1, h2]
  · intro longitude latitude altitude
    rfl
  · with_unfolding_all rfl

theorem parseCoordinates_splitting_and_roundtrip_witness :
    parseCoordinates "   " = [] ∧
    parseCoordinates "1,2 3,4" = (jsSplitWhitespace (jsTrim "1,2 3,4")).map parseCoordToken ∧
    parseCoordTokenParts ["-121.75", "47.43", "100"] = [parseFloat "-121.75", parseFloat "47.43"] := by
  refine ⟨?_, ?_, ?_⟩
  · exact parseCoordinates_splitting_and_roundtrip.1 "   " (by decide)
  · exact parseCoordinates_splitting_and_roundtrip.2.1 "1,2 3,4" (by decide)
  · exact parseCoordinates_splitting_and_roundtrip.2.2.1 "-121.75" "47.43" ["100"]

/-- C7: with the staleness horizon of one hour and the retention horizon of
one day set by useNWACWeatherForecast, a request at time zero performs a
blocking foreground fetch and populates the cache; a request at thirty
minutes returns the cached value with no fetch; a request at ninety minutes
returns the cached value immediately and triggers exactly one background
refetch; and a request at twenty-five hours performs a blocking foreground
fetch. -/
theorem forecast_cache_staleness_scenario (α : Type) (v0 v1 v2 v3 : α) :
    cacheRequest (60 * 60 * 1000) (24 * 60 * 60 * 1000) 0 v0 none =
      (v0, CacheFetchKind.foreground, some { value := v0, fetchedAt := 0 }) ∧
    cacheRequest (60 * 60 * 1000) (24 * 60 * 60 * 1000) (30 * 60 * 1000) v1
        (some { value := v0, fetchedAt := 0 }) =
      (v0, CacheFetchKind.noFetch, some { value := v0, fetchedAt := 0 }) ∧
    cacheRequest (60 * 60 * 1000) (24 * 60 * 60 * 1000) (90 * 60 * 1000) v2
        (some { value := v0, fetchedAt := 0 }) =
      (v0, CacheFetchKind.background, some { value := v2, fetchedAt := 90 * 60 * 1000 }) ∧
    cacheRequest (60 * 60 * 1000) (24 * 60 * 60 * 1000) (25 * 60 * 60 * 1000) v3
        (some { value := v0, fetchedAt := 0 }) =
      (v3, CacheFetchKind.foreground, some { value := v3, fetchedAt := 25 * 60 * 60 * 1000 }) := by
  refine ⟨rfl, ?_, ?_, ?_⟩ <;> norm_num [cacheRequest]

/-- C8: in every cache configuration constructed by the program the
staleness horizon is at most the retention horizon, and the three explicitly
configured ones are exactly as the spec states: the forecast query one hour
and one day, the alternate-zones query zero and Infinity, the
alternate-zones prefetch one day and Infinity. -/
theorem cache_configs_staleness_le_retention :
    (∀ config ∈ programCacheConfigs, config.staleTime ≤ config.cacheTime) ∧
    useNWACWeatherForecastCacheConfig =
      { staleTime := 60 * 60 * 1000, cacheTime := 24 * 60 * 60 * 1000 } ∧
    useAlternateObservationZonesCacheConfig = { staleTime := 0, cacheTime := ⊤ } ∧
    prefetchAlternateObservationZonesCacheConfig =
      { staleTime := 24 * 60 * 60 * 1000, cacheTime := ⊤ } := by
  refine ⟨?_, rfl, rfl, rfl⟩
  decide

theorem cache_configs_staleness_le_retention_witness :
    useNWACWeatherForecastCacheConfig.staleTime ≤ useNWACWeatherForecastCacheConfig.cacheTime :=
  cache_configs_staleness_le_retention.1 useNWACWeatherForecastCacheConfig (by decide)

theorem nan_mem_parseCoordTokenParts (parts : List String)
    (h : ¬ ∃ n1 n2 : JSNumber, n1 ≠ JSNumber.nan ∧ n2 ≠ JSNumber.nan ∧
      parseCoordTokenParts parts = [n1, n2]) :
    JSNumber.nan ∈ parseCoordTokenParts parts := by
  by_cases h1 : parseFloat (parts.headD "") = JSNumber.nan
  · unfold parseCoordTokenParts
    rw [h1]
    exact List.mem_cons_self _ _
  · by_cases h2 : (match parts.get? 1 with
        | some latitude => parseFloat latitude
        | none => JSNumber.nan) = JSNumber.nan
    · unfold parseCoordTokenParts
      rw [h2]
      exact List.mem_cons_of_mem _ (List.mem_cons_self _ _)
    · exact absurd ⟨_, _, h1, h2, rfl⟩ h

theorem nan_mem_parseCoordToken (tok : String) (h : ¬ tokenParsesAsNumberPair tok) :
    JSNumber.nan ∈ parseCoordToken tok := by
  unfold tokenParsesAsNumberPair at h
  unfold parseCoordToken at *
  exact nan_mem_parseCoordTokenParts _ h

/-- C4: for every input string, parseCoordinates emits exactly one pair per
whitespace-separated token of the trimmed input, at that token's position;
every emitted pair has exactly two components; and every token that fails to
parse as a number pair still contributes its pair, which contains a NaN
component, rather than being dropped or causing a failure. -/
theorem malformed_tokens_not_dropped (s : String) :
    (parseCoordinates s).length = (jsTokens s).length ∧
    ∀ i, ∀ hi : i < (jsTokens s).length,
      ∃ hp : i < (parseCoordinates s).length,
        (parseCoordinates s).get ⟨i, hp⟩ = parseCoordToken ((jsTokens s).get ⟨i, hi⟩) ∧
        ((parseCoordinates s).get ⟨i, hp⟩).length = 2 ∧
        (¬ tokenParsesAsNumberPair ((jsTokens s).get ⟨i, hi⟩) →
          JSNumber.nan ∈ (parseCoordinates s).get ⟨i, hp⟩) := by
  have heq : parseCoordinates s = (jsTokens s).map parseCoordToken := by
    cases hc : (jsFalsyString s || jsFalsyString (jsTrim s)) with
    | true => simp [parseCoordinates, jsTokens, hc]
    | false => simp [parseCoordinates, jsTokens, hc]
  refine ⟨by rw [heq, List.length_map], ?_⟩
  intro i hi
  have hp : i < (parseCoordinates s).length := by
    rw [heq, List.length_map]
    exact hi
  have hg : (parseCoordinates s).get ⟨i, hp⟩ = parseCoordToken ((jsTokens s).get ⟨i, hi⟩) := by
    simp [heq]
  refine ⟨hp, hg, ?_, ?_⟩
  · rw [hg]
    rfl
  · intro hfail
    rw [hg]
    exact nan_mem_parseCoordToken _ hfail

theorem malformed_tokens_not_dropped_witness :
    (parseCoordinates "abc,1 2").length = (jsTokens "abc,1 2").length ∧
    JSNumber.nan ∈ parseCoordToken "abc,1" := by
  have h := malformed_tokens_not_dropped "abc,1 2"
  refine ⟨h.1, ?_⟩
  have hi : 0 < (jsTokens "abc,1 2").length := by decide
  obtain ⟨hp, hget, _, himp⟩ := h.2 0 hi
  have htok : (jsTokens "abc,1 2").get ⟨0, hi⟩ = "abc,1" := rfl
  have hfail : ¬ tokenParsesAsNumberPair ((jsTokens "abc,1 2").get ⟨0, hi⟩) := by
    rw [htok]
    unfold tokenParsesAsNumberPair
    rintro ⟨n1, n2, hn1, hn2, he⟩
    rw [show parseCoordToken "abc,1" = [JSNumber.nan, JSNumber.num 1] from by decide] at he
    injection he with e1 e2
    exact hn1 e1.symm
  have hm := himp hfail
  rw [hget, htok] at hm
  exact hm

/-- C6: when the properties of the feature at index i fail validation,
exactly that feature is absent from the output (no output feature carries
its synthetic identifier), every feature whose properties validate is
present with its geometry and identifier, and the output preserves the
relative input order: output identifiers are strictly decreasing, that is,
original ordinals strictly increasing. -/
theorem transform_drops_exactly_invalid_features
    (validate : ObservationZoneProperties → Option ObservationZoneProperties)
    (kmlCollection : KMLFeatureCollection) (center_id : String)
    (i : ℕ) (hi : i < kmlCollection.features.length)
    (hfail : validate { name := (kmlCollection.features.get ⟨i, hi⟩).properties.name,
                        center_id := center_id } = none) :
    (∀ g ∈ (transformKmlFeaturesToObservationZones validate kmlCollection center_id).features,
      g.id ≠ -100000 - (i : ℤ)) ∧
    (∀ j, ∀ hj : j < kmlCollection.features.length, ∀ p : ObservationZoneProperties,
      validate { name := (kmlCollection.features.get ⟨j, hj⟩).properties.name,
                 center_id := center_id } = some p →
      ({ geometry := (kmlCollection.features.get ⟨j, hj⟩).geometry,
         id := -100000 - (j : ℤ), properties := p } : ObservationZonesFeature) ∈
        (transformKmlFeaturesToObservationZones validate kmlCollection center_id).features) ∧
    (transformKmlFeaturesToObservationZones validate kmlCollection center_id).features.Pairwise
      (fun a b => b.id < a.id) := by
  refine ⟨?_, ?_, ?_⟩
  · intro g hg hgid
    rcases mem_transform_features.mp hg with ⟨k, hk, hbind⟩
    have hkid : g.id = -100000 - (k : ℤ) := id_of_bind_transformStep hbind
    have hki : k = i := by omega
    subst hki
    rw [List.get?_eq_get hk] at hbind
    simp only [Option.bind] at hbind
    rcases (transformStep_eq_some validate center_id k _ g).mp hbind with ⟨p, hp, _⟩
    rw [hfail] at hp
    exact Option.noConfusion hp
  · intro j hj p hp
    apply mem_transform_features.mpr
    refine ⟨j, hj, ?_⟩
    rw [List.get?_eq_get hj]
    simp only [Option.bind]
    exact (transformStep_eq_some validate center_id j _ _).mpr ⟨p, hp, rfl⟩
  · rw [transform_eq_filterMap_step, filterMap_mapIdx_eq_range]
    refine List.Pairwise.filterMap _ ?_ (List.pairwise_lt_range _)
    intro a b hab x hx y hy
    have h1 : x.id = -100000 - (a : ℤ) := id_of_bind_transformStep (Option.mem_def.mp hx)
    have h2 : y.id = -100000 - (b : ℤ) := id_of_bind_transformStep (Option.mem_def.mp hy)
    omega

def demoDropValidate : ObservationZoneProperties → Option ObservationZoneProperties :=
  fun p => if p.name = "bad" then none else some p

def demoKMLFeatureGood : KMLFeature :=
  { geometry := { coordinates := [[]] }, id := 0, properties := { name := "good" } }

def demoKMLFeatureBad : KMLFeature :=
  { geometry := { coordinates := [[]] }, id := 1, properties := { name := "bad" } }

def demoTwoCollection : KMLFeatureCollection :=
  { features := [demoKMLFeatureGood, demoKMLFeatureBad] }

def demoTransformedGood : ObservationZonesFeature :=
  { geometry := { coordinates := [[]] }, id := -100000,
    properties := { name := "good", center_id := "NWAC" } }

theorem transform_drops_exactly_invalid_features_witness :
    demoTransformedGood ∈
      (transformKmlFeaturesToObservationZones demoDropValidate demoTwoCollection "NWAC").features ∧
    demoTransformedGood.id ≠ -100000 - (1 : ℤ) := by
  have h := transform_drops_exactly_invalid_features demoDropValidate demoTwoCollection "NWAC"
    1 (by decide) (by decide)
  constructor
  · have h2 := h.2.1 0 (by decide) { name := "good", center_id := "NWAC" } (by decide)
    simpa using h2
  · exact h.1 demoTransformedGood (by decide)

theorem parseKmlData_ok (safeParseKMLFile : Json → Option KMLFile) (tree : Json)
    (kmlData : KMLFile) (h : safeParseKMLFile tree = some kmlData) :
    parseKmlData safeParseKMLFile (Except.ok tree) =
      Except.ok { features := kmlData.kml.Document.Folder.Placemark.mapIdx buildKMLFeature } := by
  simp [parseKmlData, h]

/-- C9: for every placemark whose name element has missing or empty text,
parseKmlData emits a feature whose name property is the default Unknown KML
Zone string, and under any downstream properties validation that accepts
every non-empty name the feature survives the transformation with its
synthetic identifier, rather than being dropped. -/
theorem missing_name_defaults_to_unknown_zone
    (safeParseKMLFile : Json → Option KMLFile) (tree : Json) (kmlData : KMLFile)
    (hparse : safeParseKMLFile tree = some kmlData)
    (i : ℕ) (hi : i < kmlData.kml.Document.Folder.Placemark.length)
    (hname : (kmlData.kml.Document.Folder.Placemark.get ⟨i, hi⟩).name._text = none ∨
      (kmlData.kml.Document.Folder.Placemark.get ⟨i, hi⟩).name._text = some "") :
    ∃ kmlCollection : KMLFeatureCollection,
      parseKmlData safeParseKMLFile (Except.ok tree) = Except.ok kmlCollection ∧
      kmlCollection.features.length = kmlData.kml.Document.Folder.Placemark.length ∧
      ∃ hfi : i < kmlCollection.features.length,
        (kmlCollection.features.get ⟨i, hfi⟩).properties.name = "Unknown KML Zone" ∧
        ∀ (validate : ObservationZoneProperties → Option ObservationZoneProperties)
          (center_id : String),
          (∀ p : ObservationZoneProperties, p.name ≠ "" → (validate p).isSome = true) →
          ∃ g ∈ (transformKmlFeaturesToObservationZones validate kmlCollection center_id).features,
            g.id = -100000 - (i : ℤ) := by
  refine ⟨{ features := kmlData.kml.Document.Folder.Placemark.mapIdx buildKMLFeature },
    parseKmlData_ok _ _ _ hparse, List.length_mapIdx, ?_⟩
  have hfi : i < (kmlData.kml.Document.Folder.Placemark.mapIdx buildKMLFeature).length := by
    rw [List.length_mapIdx]
    exact hi
  have hfeat : (kmlData.kml.Document.Folder.Placemark.mapIdx buildKMLFeature).get ⟨i, hfi⟩ =
      buildKMLFeature i (kmlData.kml.Document.Folder.Placemark.get ⟨i, hi⟩) :=
    List.get_mapIdx _ _ _ hi
  have hnm : (buildKMLFeature i (kmlData.kml.Document.Folder.Placemark.get ⟨i, hi⟩)).properties.name =
      "Unknown KML Zone" := by
    rcases hname with h | h
    · simp only [List.get_eq_getElem] at h
      simp [buildKMLFeature, jsOrDefault, h]
    · simp only [List.get_eq_getElem] at h
      simp [buildKMLFeature, jsOrDefault, h]
      decide
  refine ⟨hfi, by rw [hfeat]; exact hnm, ?_⟩
  intro validate center_id hvalid
  have hsome : (validate { name := (buildKMLFeature i (kmlData.kml.Document.Folder.Placemark.get ⟨i, hi⟩)).properties.name, center_id := center_id }).isSome = true := by
    apply hvalid
    rw [hnm]
    exact (by decide : ("Unknown KML Zone" : String) ≠ "")
  rcases Option.isSome_iff_exists.mp hsome with ⟨p, hp⟩
  refine ⟨⟨(buildKMLFeature i (kmlData.kml.Document.Folder.Placemark.get ⟨i, hi⟩)).geometry, -100000 - (i : ℤ), p⟩, ?_, rfl⟩
  apply mem_transform_features.mpr
  refine ⟨i, hfi, ?_⟩
  rw [List.get?_eq_get hfi]
  simp only [Option.bind]
  apply (transformStep_eq_some _ _ _ _ _).mpr
  refine ⟨p, ?_, ?_⟩
  · rw [hfeat]
    exact hp
  · rw [hfeat]

def demoPlacemarkNoName : KMLPlacemark :=
  { name := { _text := none }, Polygon := none, MultiGeometry := none }

def demoKMLFile : KMLFile :=
  { kml := { Document := { Folder := { Placemark := [demoPlacemarkNoName] } } } }

def demoRequireNameValidate : ObservationZoneProperties → Option ObservationZoneProperties :=
  fun p => if p.name = "" then none else some p

theorem missing_name_defaults_to_unknown_zone_witness :
    parseKmlData (fun _ => some demoKMLFile) (Except.ok Json.null) =
      Except.ok { features := [buildKMLFeature 0 demoPlacemarkNoName] } ∧
    (buildKMLFeature 0 demoPlacemarkNoName).properties.name = "Unknown KML Zone" ∧
    ∃ g ∈ (transformKmlFeaturesToObservationZones demoRequireNameValidate
        { features := [buildKMLFeature 0 demoPlacemarkNoName] } "NWAC").features,
      g.id = -100000 - (0 : ℤ) := by
  obtain ⟨coll, hp, hlen, hfi, hnm, hsurv⟩ :=
    missing_name_defaults_to_unknown_zone (fun _ => some demoKMLFile) Json.null demoKMLFile rfl
      0 (by decide) (Or.inl rfl)
  have hpe : parseKmlData (fun _ => some demoKMLFile) (Except.ok Json.null) =
      Except.ok { features := [buildKMLFeature 0 demoPlacemarkNoName] } :=
    parseKmlData_ok (fun _ => some demoKMLFile) Json.null demoKMLFile rfl
  have hcoll : coll = { features := [buildKMLFeature 0 demoPlacemarkNoName] } := by
    rw [hpe] at hp
    injection hp with h
    exact h.symm
  subst hcoll
  exact ⟨hpe, hnm, hsurv demoRequireNameValidate "NWAC" (by
    intro p hne
    simp [demoRequireNameValidate, hne])⟩

/-- C10: for every placemark with neither a Polygon nor a MultiGeometry
sub-node, getCoordinateString returns the empty string, and parseKmlData
still emits a feature for it (the collection keeps one feature per
placemark) whose geometry is a Polygon with the single empty ring. -/
theorem placemark_without_geometry_kept_with_empty_ring
    (safeParseKMLFile : Json → Option KMLFile) (tree : Json) (kmlData : KMLFile)
    (hparse : safeParseKMLFile tree = some kmlData)
    (i : ℕ) (hi : i < kmlData.kml.Document.Folder.Placemark.length)
    (hpoly : (kmlData.kml.Document.Folder.Placemark.get ⟨i, hi⟩).Polygon = none)
    (hmulti : (kmlData.kml.Document.Folder.Placemark.get ⟨i, hi⟩).MultiGeometry = none) :
    getCoordinateString (kmlData.kml.Document.Folder.Placemark.get ⟨i, hi⟩) = "" ∧
    ∃ kmlCollection : KMLFeatureCollection,
      parseKmlData safeParseKMLFile (Except.ok tree) = Except.ok kmlCollection ∧
      kmlCollection.features.length = kmlData.kml.Document.Folder.Placemark.length ∧
      ∃ hfi : i < kmlCollection.features.length,
        (kmlCollection.features.get ⟨i, hfi⟩).geometry = { coordinates := [[]] } := by
  have hcs : getCoordinateString (kmlData.kml.Document.Folder.Placemark.get ⟨i, hi⟩) = "" := by
    simp only [List.get_eq_getElem] at hpoly hmulti
    simp [getCoordinateString, hpoly, hmulti]
  refine ⟨hcs, { features := kmlData.kml.Document.Folder.Placemark.mapIdx buildKMLFeature },
    parseKmlData_ok _ _ _ hparse, List.length_mapIdx, ?_⟩
  have hfi : i < (kmlData.kml.Document.Folder.Placemark.mapIdx buildKMLFeature).length := by
    rw [List.length_mapIdx]
    exact hi
  have hfeat : (kmlData.kml.Document.Folder.Placemark.mapIdx buildKMLFeature).get ⟨i, hfi⟩ =
      buildKMLFeature i (kmlData.kml.Document.Folder.Placemark.get ⟨i, hi⟩) :=
    List.get_mapIdx _ _ _ hi
  refine ⟨hfi, ?_⟩
  rw [hfeat]
  have hcs2 := hcs
  simp only [List.get_eq_getElem] at hcs2
  simp [buildKMLFeature, hcs2, show parseCoordinates "" = [] from rfl]

theorem placemark_without_geometry_kept_with_empty_ring_witness :
    getCoordinateString demoPlacemarkNoName = "" ∧
    (buildKMLFeature 0 demoPlacemarkNoName).geometry = { coordinates := [[]] } := by
  obtain ⟨hcs, coll, hp, hlen, hfi, hg⟩ :=
    placemark_without_geometry_kept_with_empty_ring (fun _ => some demoKMLFile) Json.null
      demoKMLFile rfl 0 (by decide) rfl rfl
  have hpe : parseKmlData (fun _ => some demoKMLFile) (Except.ok Json.null) =
      Except.ok { features := [buildKMLFeature 0 demoPlacemarkNoName] } :=
    parseKmlData_ok (fun _ => some demoKMLFile) Json.null demoKMLFile rfl
  have hcoll : coll = { features := [buildKMLFeature 0 demoPlacemarkNoName] } := by
    rw [hpe] at hp
    injection hp with h
    exact h.symm
  subst hcoll
  exact ⟨hcs, hg⟩

/-- C3: the forecast fetch surfaces a transport failure as the typed axios
error and a schema validation failure as the typed Zod error, the two being
distinguishable; it returns a value only when the full envelope parses, and
then exactly the parsed objects payload; and any response whose
mountain_weather_forecast object lacks the creation_date key fails the
schema. -/
theorem forecast_schema_rejection_typed_error :
    (∀ e : String,
      fetchNWACWeatherForecast (Except.error e) = Except.error (NWACFetchError.axios e) ∧
      NWACFetchError.axios e ≠ NWACFetchError.zod) ∧
    (∀ j : Json, nwacWeatherForecastMetaSchema_safeParse j = none →
      fetchNWACWeatherForecast (Except.ok j) = Except.error NWACFetchError.zod) ∧
    (∀ (j : Json) (parsed : NWACWeatherForecastMeta),
      nwacWeatherForecastMetaSchema_safeParse j = some parsed →
      fetchNWACWeatherForecast (Except.ok j) = Except.ok parsed.objects) ∧
    (∀ (j : Json) (v : NWACWeatherForecast),
      fetchNWACWeatherForecast (Except.ok j) = Except.ok v →
      ∃ parsed, nwacWeatherForecastMetaSchema_safeParse j = some parsed ∧ v = parsed.objects) ∧
    (∀ (fields ofields mfields : List (String × Json)),
      List.lookup "objects" fields = some (Json.obj ofields) →
      List.lookup "mountain_weather_forecast" ofields = some (Json.obj mfields) →
      List.lookup "creation_date" mfields = none →
      nwacWeatherForecastMetaSchema_safeParse (Json.obj fields) = none) := by
  refine ⟨?_, ?_, ?_, ?_, ?_⟩
  · intro e
    exact ⟨rfl, fun hc => NWACFetchError.noConfusion hc⟩
  · intro j h
    simp [fetchNWACWeatherForecast, h]
  · intro j parsed h
    simp [fetchNWACWeatherForecast, h]
  · intro j v h
    cases hp : nwacWeatherForecastMetaSchema_safeParse j with
    | none => simp [fetchNWACWeatherForecast, hp] at h
    | some parsed =>
      simp only [fetchNWACWeatherForecast, hp] at h
      injection h with hh
      exact ⟨parsed, rfl, hh.symm⟩
  · intro fields ofields mfields hobj hmwf hcd
    have hmwfnone : parseMountainWeatherForecast (Json.obj mfields) = none := by
      unfold parseMountainWeatherForecast
      cases hid : zField mfields "id" zNumber with
      | none => simp [hid]
      | some n =>
        have hcds : zField mfields "creation_date" zString = none := by
          unfold zField
          rw [hcd]
        simp [hid, hcds]
    have hforecast : nwacWeatherForecastSchema_safeParse (Json.obj ofields) = none := by
      unfold nwacWeatherForecastSchema_safeParse
      have hmwfp : zField ofields "mountain_weather_forecast" parseMountainWeatherForecast = none := by
        unfold zField
        rw [hmwf]
        exact hmwfnone
      cases htemps : zField ofields "five_thousand_foot_temperatures" (zArray parseNWACTempRange) with
      | none => simp [htemps]
      | some ts =>
        cases hfc : zField ofields "forecaster" parseNWACForecaster with
        | none => simp [htemps, hfc]
        | some fc => simp [htemps, hfc, hmwfp]
    unfold nwacWeatherForecastMetaSchema_safeParse
    have hobjp : zField fields "objects" nwacWeatherForecastSchema_safeParse = none := by
      unfold zField
      rw [hobj]
      exact hforecast
    cases hmeta : zField fields "meta" parseNWACMeta with
    | none => simp [hmeta]
    | some m => simp [hmeta, hobjp]

def nwacGoodMWFJson : List (String × Json) :=
  [("id", Json.num 1),
   ("creation_date", Json.str "2023-01-01 12:00:00"),
   ("publish_date", Json.str "2023-01-01 13:00:00"),
   ("day1_date", Json.str "2023-01-01"),
   ("special_header_notes", Json.str ""),
   ("synopsis_day1_day2", Json.str "synopsis"),
   ("extended_synopsis", Json.str "extended"),
   ("afternoon", Json.num 0)]

/-- The same mountain_weather_forecast object with the creation_date key
removed. -/
def nwacBadMWFJson : List (String × Json) :=
  [("id", Json.num 1),
   ("publish_date", Json.str "2023-01-01 13:00:00"),
   ("day1_date", Json.str "2023-01-01"),
   ("special_header_notes", Json.str ""),
   ("synopsis_day1_day2", Json.str "synopsis"),
   ("extended_synopsis", Json.str "extended"),
   ("afternoon", Json.num 0)]

def nwacObjectsJson (mwf : List (String × Json)) : Json :=
  Json.obj
    [("five_thousand_foot_temperatures",
      Json.arr [Json.obj [("min", Json.num 20), ("max", Json.num 30)]]),
     ("forecaster", Json.obj [("first_name", Json.str "Ann"), ("last_name", Json.str "Lee")]),
     ("mountain_weather_forecast", Json.obj mwf),
     ("periods", Json.arr [Json.str "Monday"]),
     ("sub_periods", Json.arr [Json.str "AM"]),
     ("precipitation_by_location",
      Json.arr [Json.obj [("name", Json.str "loc"), ("order", Json.num 1),
                          ("precipitation", Json.arr [Json.obj [("value", Json.str "0.1")]])]]),
     ("snow_levels", Json.arr [Json.obj [("elevation", Json.num 5000)]]),
     ("ridgeline_winds", Json.arr [Json.obj [("direction", Json.str "W"), ("speed", Json.str "10")]]),
     ("weather_forecasts",
      Json.arr [Json.obj [("date", Json.str "2023-01-01"), ("time_of_day", Json.str "1-morning"),
                          ("description", Json.str "snow")]])]

def nwacGoodResponseJson : Json :=
  Json.obj [("meta", Json.obj []), ("objects", nwacObjectsJson nwacGoodMWFJson)]

def nwacBadResponseJson : Json :=
  Json.obj [("meta", Json.obj []), ("objects", nwacObjectsJson nwacBadMWFJson)]

def nwacGoodForecast : NWACWeatherForecast :=
  { five_thousand_foot_temperatures := [{ min := 20, max := 30 }],
    forecaster := { first_name := "Ann", last_name := "Lee" },
    mountain_weather_forecast :=
      { id := 1,
        creation_date := "2023-01-01T12:00:00+00:00",
        publish_date := "2023-01-01T13:00:00+00:00",
        day1_date := "2023-01-01",
        special_header_notes := "",
        synopsis_day1_day2 := "synopsis",
        extended_synopsis := "extended",
        afternoon := false },
    periods := ["Monday"],
    sub_periods := ["AM"],
    precipitation_by_location := [{ name := "loc", order := 1, precipitation := [{ value := "0.1" }] }],
    snow_levels := [{ elevation := 5000 }],
    ridgeline_winds := [{ direction := "W", speed := "10" }],
    weather_forecasts := [{ date := "2023-01-01", time_of_day := "1-morning", description := "snow" }] }

def nwacGoodParsed : NWACWeatherForecastMeta :=
  { meta := { limit := none, next := none, offset := none, previous := none, total_count := none },
    objects := nwacGoodForecast }

theorem forecast_schema_rejection_typed_error_witness :
    nwacWeatherForecastMetaSchema_safeParse nwacBadResponseJson = none ∧
    fetchNWACWeatherForecast (Except.ok nwacBadResponseJson) = Except.error NWACFetchError.zod ∧
    fetchNWACWeatherForecast (Except.ok nwacGoodResponseJson) = Except.ok nwacGoodParsed.objects := by
  have hbad : nwacWeatherForecastMetaSchema_safeParse nwacBadResponseJson = none :=
    forecast_schema_rejection_typed_error.2.2.2.2 _ _ _ rfl rfl rfl
  refine ⟨hbad, forecast_schema_rejection_typed_error.2.1 _ hbad, ?_⟩
  exact forecast_schema_rejection_typed_error.2.2.1 nwacGoodResponseJson nwacGoodParsed rfl
